import Mathlib

/-!
Verification development for the Bank-Backend repository.

The embedding below is a shallow Lean model of the money-movement core of
the repository: the account service (`src/modules/accounts/service.py`),
the transaction service (`src/modules/transactions/service.py`), the
transfer service (`src/modules/transfers/service.py`) and the OTP service
(`src/modules/otps/service.py`).

Modelling conventions:
* Python `float` amounts/balances are modelled as exact rationals (`Rat`);
  `UUID` identifiers are modelled as `Nat`; `datetime` instants as `Nat`
  timestamps (larger = later).
* The SQLAlchemy session is modelled by explicit state passing: the set of
  persisted rows is a `List` and a service call returns the committed state
  after the call.  A raised exception is an `Except.error`/explicit error
  component; since every mutation in the source is only made visible by the
  final `commit()` (and every failure path either raises before mutating or
  calls `rollback()`), an error leaves the committed state unchanged.
* Exception points inside the `try:` blocks of credit/debit/create_transfer
  are modelled by an explicit `fault` flag injected between validation and
  commit, mirroring the fault-injection reading of the spec.
-/

deriving instance DecidableEq for Except

namespace Bank

/-- `AccountStatus` enum from `src/models/account.py`. -/
inductive AccountStatus
  | ACTIVE
  | BLOCKED
  | CLOSED
deriving DecidableEq, Repr

/-- `TransactionType` enum from `src/models/transaction.py`. -/
inductive TransactionType
  | DEBIT
  | CREDIT
  | TRANSFER
deriving DecidableEq, Repr

/-- `TransactionStatus` enum from `src/models/transaction.py`. -/
inductive TransactionStatus
  | PENDING
  | COMPLETED
  | FAILED
deriving DecidableEq, Repr

/-- `Account` row from `src/models/account.py` (fields relevant to the
money-movement logic; `balance` is a `Float` column modelled as `Rat`). -/
structure Account where
  id : Nat
  user_id : Nat
  balance : Rat
  currency : String := "TND"
  status : AccountStatus := .ACTIVE
deriving DecidableEq, Repr

/-- `Transaction` row from `src/models/transaction.py`. -/
structure Transaction where
  sender_account_id : Nat
  type : TransactionType
  amount : Rat
  reference : String
  status : TransactionStatus
deriving DecidableEq, Repr

/-- Exceptions raised by `AccountService`
(`src/accounts/exceptions.py`, as imported by
`src/modules/accounts/service.py`). -/
inductive AccountErr
  | AccountNotFoundError
  | AccountAccessDeniedError
  | InvalidAmountError
  | InsufficientFundsError
deriving DecidableEq, Repr

/-- Database state seen by `AccountService`: the persisted `accounts` and
`transactions` tables. -/
structure BankState where
  accounts : List Account
  transactions : List Transaction
deriving DecidableEq, Repr

/-- In-place mutation of the (unique) ORM `Account` object with a given id:
`account.balance = f(account.balance)`.  Modelled as a map over the table. -/
def mapBalance (l : List Account) (i : Nat) (f : Rat → Rat) : List Account :=
  l.map (fun a => if a.id == i then { a with balance := f a.balance } else a)

namespace AccountService

/-- `AccountService.get_account`: `query(Account).filter(Account.id ==
account_id).first()`. -/
def get_account (l : List Account) (account_id : Nat) : Option Account :=
  l.find? (fun a => a.id == account_id)

/-- `AccountService.get_account_by_id`: raises `AccountNotFoundError` when
absent. -/
def get_account_by_id (l : List Account) (account_id : Nat) :
    Except AccountErr Account :=
  match get_account l account_id with
  | none => .error .AccountNotFoundError
  | some a => .ok a

/-- `AccountService.get_user_account`: existence check, then ownership
check (`AccountAccessDeniedError`). -/
def get_user_account (l : List Account) (account_id user_id : Nat) :
    Except AccountErr Account := do
  let a ← get_account_by_id l account_id
  if a.user_id ≠ user_id then
    .error .AccountAccessDeniedError
  else
    .ok a

/-- `AccountService.deposit`: rejects non-positive amounts, resolves the
owned account, then `account.balance += amount` and commits.  (The source
has no account-status check on this path.) -/
def deposit (s : BankState) (account_id user_id : Nat) (amount : Rat) :
    Except AccountErr BankState :=
  if amount ≤ 0 then
    .error .InvalidAmountError
  else do
    let _account ← get_user_account s.accounts account_id user_id
    .ok { s with accounts := mapBalance s.accounts account_id (· + amount) }

/-- `AccountService.withdraw`: rejects non-positive amounts, resolves the
owned account, checks sufficient funds, then `account.balance -= amount`. -/
def withdraw (s : BankState) (account_id user_id : Nat) (amount : Rat) :
    Except AccountErr BankState :=
  if amount ≤ 0 then
    .error .InvalidAmountError
  else do
    let account ← get_user_account s.accounts account_id user_id
    if account.balance < amount then
      .error .InsufficientFundsError
    else
      .ok { s with accounts := mapBalance s.accounts account_id (· - amount) }

/-- `AccountService.transfer`: internal transfer between two accounts of the
same user.  Validations mirror the source order (amount, source ownership,
target existence, target ownership, funds); then a `COMPLETED` `TRANSFER`
transaction row is added and `source.balance -= amount` /
`target.balance += amount` are applied in order (on the same ORM object when
source = target).  `ref` stands for the generated reference string. -/
def transfer (s : BankState) (source_account_id user_id target_account_id : Nat)
    (amount : Rat) (ref : String) : Except AccountErr BankState :=
  if amount ≤ 0 then
    .error .InvalidAmountError
  else do
    let source_account ← get_user_account s.accounts source_account_id user_id
    let target_account ← get_account_by_id s.accounts target_account_id
    if target_account.user_id ≠ user_id then
      .error .AccountAccessDeniedError
    else if source_account.balance < amount then
      .error .InsufficientFundsError
    else
      let tx : Transaction :=
        { sender_account_id := source_account_id
          type := .TRANSFER
          amount := amount
          reference := ref
          status := .COMPLETED }
      .ok { accounts :=
              mapBalance (mapBalance s.accounts source_account_id (· - amount))
                target_account_id (· + amount)
            transactions := s.transactions ++ [tx] }

end AccountService

/-- One balance-mutating request against the account service. -/
inductive AccountOp
  | deposit (account_id user_id : Nat) (amount : Rat)
  | withdraw (account_id user_id : Nat) (amount : Rat)
  | transfer (source_account_id user_id target_account_id : Nat)
      (amount : Rat) (ref : String)
deriving DecidableEq, Repr

/-- Dispatch one request to the corresponding service method. -/
def applyOp (s : BankState) : AccountOp → Except AccountErr BankState
  | .deposit account_id user_id amount =>
      AccountService.deposit s account_id user_id amount
  | .withdraw account_id user_id amount =>
      AccountService.withdraw s account_id user_id amount
  | .transfer src user_id tgt amount ref =>
      AccountService.transfer s src user_id tgt amount ref

/-- Run a sequence of requests, each of which must be individually accepted
(none raising an error). -/
def runAccepted (s : BankState) : List AccountOp → Option BankState
  | [] => some s
  | op :: rest =>
      match applyOp s op with
      | .error _ => none
      | .ok s' => runAccepted s' rest

/-- Balance of the account row with a given id (0 if absent). -/
def balanceOf (l : List Account) (i : Nat) : Rat :=
  ((AccountService.get_account l i).map Account.balance).getD 0

/-- `OTPPurpose` enum from `src/models/otp.py`. -/
inductive OTPPurpose
  | LOGIN
  | TRANSACTION
  | PASSWORD_RESET
  | EMAIL_VERIFICATION
  | PHONE_VERIFICATION
  | ACCOUNT_ACTIVATION
deriving DecidableEq, Repr

/-- `OTP` row from `src/models/otp.py`; timestamps are `Nat` instants. -/
structure OTP where
  id : Nat
  user_id : Nat
  code : String
  purpose : OTPPurpose
  is_used : Bool := false
  attempts : Nat := 0
  max_attempts : Nat := 3
  expires_at : Nat
  created_at : Nat := 0
  used_at : Option Nat := none
deriving DecidableEq, Repr

/-- The messages of `OTPMessages` in `src/modules/otps/service.py` that can
appear in an `OTPVerifyResponse`. -/
inductive OTPMsg
  | VERIFIED_SUCCESS
  | INVALID_OR_EXPIRED
  | NO_ACTIVE_OTP
  | MAX_ATTEMPTS_EXCEEDED
  | OTP_ALREADY_USED
deriving DecidableEq, Repr

namespace OTPService

/-- `OTPService.is_valid`: not used, attempts below the cap, and the current
instant not past `expires_at`. -/
def is_valid (now : Nat) (otp : OTP) : Bool :=
  if otp.is_used then false
  else if otp.max_attempts ≤ otp.attempts then false
  else if otp.expires_at < now then false
  else true

/-- `OTPService.verify_otp`: increments `attempts`, re-checks validity on
the incremented record, then compares the code; on match marks the OTP used.
Returns the updated row and the success flag. -/
def verify_otp (now : Nat) (otp : OTP) (code : String) : OTP × Bool :=
  let otp1 := { otp with attempts := otp.attempts + 1 }
  if ¬ is_valid now otp1 then
    (otp1, false)
  else if otp1.code == code then
    ({ otp1 with is_used := true, used_at := some now }, true)
  else
    (otp1, false)

/-- The filter `user_id == .. AND purpose == .. AND is_used == False` used
by `get_active_otp` and `_invalidate_existing_otps`. -/
def unused_for (user_id : Nat) (purpose : OTPPurpose) (o : OTP) : Bool :=
  o.user_id == user_id && o.purpose == purpose && o.is_used == false

/-- `ORDER BY created_at DESC ... first()`: the row with the greatest
`created_at` (earliest row wins ties). -/
def most_recent : List OTP → Option OTP
  | [] => none
  | o :: rest =>
      match most_recent rest with
      | none => some o
      | some b => if o.created_at < b.created_at then some b else some o

/-- `OTPService.get_active_otp`: most recent unused OTP for the pair, kept
only when `is_valid`. -/
def get_active_otp (now : Nat) (otps : List OTP) (user_id : Nat)
    (purpose : OTPPurpose) : Option OTP :=
  match most_recent (otps.filter (unused_for user_id purpose)) with
  | none => none
  | some o => if is_valid now o then some o else none

/-- Commit of the mutated ORM `OTP` object: replace the row with its id. -/
def updateOtp (otps : List OTP) (o : OTP) : List OTP :=
  otps.map (fun x => if x.id == o.id then o else x)

/-- `OTPService.verify_user_otp_response`: returns the committed OTP table,
the success flag and the response message. -/
def verify_user_otp_response (now : Nat) (otps : List OTP) (user_id : Nat)
    (purpose : OTPPurpose) (code : String) : List OTP × Bool × OTPMsg :=
  match get_active_otp now otps user_id purpose with
  | none => (otps, false, .NO_ACTIVE_OTP)
  | some otp =>
      if otp.is_used then
        (otps, false, .OTP_ALREADY_USED)
      else if otp.max_attempts ≤ otp.attempts then
        (otps, false, .MAX_ATTEMPTS_EXCEEDED)
      else
        (updateOtp otps (verify_otp now otp code).1,
          (verify_otp now otp code).2,
          if (verify_otp now otp code).2 then .VERIFIED_SUCCESS
          else .INVALID_OR_EXPIRED)

/-- `OTPService._invalidate_existing_otps`: marks every unused OTP of the
(user, purpose) pair as used. -/
def invalidate_existing_otps (otps : List OTP) (user_id : Nat)
    (purpose : OTPPurpose) : List OTP :=
  otps.map (fun o =>
    if unused_for user_id purpose o then { o with is_used := true } else o)

/-- `OTPService.create_otp`: invalidates prior unused OTPs for the pair then
persists a fresh row (`newId` stands for the generated primary key, `code`
for the generated numeric code, `validity` for the configured window). -/
def create_otp (otps : List OTP) (user_id : Nat) (purpose : OTPPurpose)
    (newId : Nat) (code : String) (now validity : Nat)
    (max_attempts : Nat := 3) : List OTP :=
  invalidate_existing_otps otps user_id purpose ++
    [{ id := newId
       user_id := user_id
       code := code
       purpose := purpose
       is_used := false
       attempts := 0
       max_attempts := max_attempts
       expires_at := now + validity
       created_at := now
       used_at := none }]

/-- `OTPService.cleanup_expired_otps`: deletes rows with
`expires_at < now`. -/
def cleanup_expired_otps (otps : List OTP) (now : Nat) : List OTP :=
  otps.filter (fun o => ¬ o.expires_at < now)

end OTPService

/-- Number of unused OTP rows for a (user, purpose) pair. -/
def countUnused (otps : List OTP) (user_id : Nat) (purpose : OTPPurpose) :
    Nat :=
  otps.countP (fun o => OTPService.unused_for user_id purpose o)

/-- At most one usable (unused) OTP per (user, purpose) pair. -/
def otpInv (otps : List OTP) : Prop :=
  ∀ user_id purpose, countUnused otps user_id purpose ≤ 1

/-- One state-changing request against the OTP service. -/
inductive OTPOp
  | create (user_id : Nat) (purpose : OTPPurpose) (newId : Nat)
      (code : String) (now validity max_attempts : Nat)
  | verify (now user_id : Nat) (purpose : OTPPurpose) (code : String)
  | cleanup (now : Nat)
deriving DecidableEq, Repr

/-- Dispatch one OTP request; the resulting committed OTP table. -/
def applyOTPOp (otps : List OTP) : OTPOp → List OTP
  | .create user_id purpose newId code now validity max_attempts =>
      OTPService.create_otp otps user_id purpose newId code now validity
        max_attempts
  | .verify now user_id purpose code =>
      (OTPService.verify_user_otp_response now otps user_id purpose code).1
  | .cleanup now => OTPService.cleanup_expired_otps otps now

/-- Exceptions of `src/modules/transactions/exceptions.py` raised by
`TransactionService.credit`/`debit`. -/
inductive TxErr
  | AccountNotFoundError
  | InvalidTransactionAmountError
  | TransactionAccessDeniedError
  | AccountNotActiveError
  | InsufficientFundsError
  | TransactionFailedError
deriving DecidableEq, Repr

namespace TransactionService

/-- `TransactionService._get_account`. -/
def get_account (l : List Account) (account_id : Nat) :
    Except TxErr Account :=
  match l.find? (fun a => a.id == account_id) with
  | none => .error .AccountNotFoundError
  | some a => .ok a

/-- `TransactionService.credit`: validations (amount, existence, ownership,
active status), then inside one database transaction a `CREDIT` row is
inserted, the balance increased and the row flipped to `COMPLETED`; any
exception there (modelled by `fault`) rolls back and raises
`TransactionFailedError`.  Returns the committed state together with the
outcome. -/
def credit (s : BankState) (user_id account_id : Nat) (amount : Rat)
    (ref : String) (fault : Bool) :
    BankState × Except TxErr Transaction :=
  if amount ≤ 0 then
    (s, .error .InvalidTransactionAmountError)
  else
    match get_account s.accounts account_id with
    | .error e => (s, .error e)
    | .ok account =>
      if account.user_id ≠ user_id then
        (s, .error .TransactionAccessDeniedError)
      else if account.status ≠ .ACTIVE then
        (s, .error .AccountNotActiveError)
      else if fault then
        (s, .error .TransactionFailedError)
      else
        let tx : Transaction :=
          { sender_account_id := account_id
            type := .CREDIT
            amount := amount
            reference := ref
            status := .COMPLETED }
        ({ accounts := mapBalance s.accounts account_id (· + amount)
           transactions := s.transactions ++ [tx] }, .ok tx)

/-- `TransactionService.debit`: like `credit` with a sufficient-funds check
and a balance decrease; the committed `DEBIT` row is `COMPLETED`. -/
def debit (s : BankState) (user_id account_id : Nat) (amount : Rat)
    (ref : String) (fault : Bool) :
    BankState × Except TxErr Transaction :=
  if amount ≤ 0 then
    (s, .error .InvalidTransactionAmountError)
  else
    match get_account s.accounts account_id with
    | .error e => (s, .error e)
    | .ok account =>
      if account.user_id ≠ user_id then
        (s, .error .TransactionAccessDeniedError)
      else if account.status ≠ .ACTIVE then
        (s, .error .AccountNotActiveError)
      else if account.balance < amount then
        (s, .error .InsufficientFundsError)
      else if fault then
        (s, .error .TransactionFailedError)
      else
        let tx : Transaction :=
          { sender_account_id := account_id
            type := .DEBIT
            amount := amount
            reference := ref
            status := .COMPLETED }
        ({ accounts := mapBalance s.accounts account_id (· - amount)
           transactions := s.transactions ++ [tx] }, .ok tx)

end TransactionService

/-- `Beneficiary` row from `src/models/beneficiary.py`. -/
structure Beneficiary where
  id : Nat
  user_id : Nat
  name : String
  bank_name : String
  iban : String
  is_verified : Bool := false
deriving DecidableEq, Repr

/-- `Transfer` row from `src/models/transfer.py` (a transaction targeting a
beneficiary). -/
structure TransferRow where
  sender_account_id : Nat
  beneficiary_id : Nat
  type : TransactionType
  amount : Rat
  reference : String
  status : TransactionStatus
deriving DecidableEq, Repr

/-- Exceptions of `src/modules/transfers/exceptions.py` raised by
`TransferService.create_transfer`. -/
inductive TransferErr
  | AccountNotFoundError
  | InvalidTransferAmountError
  | TransferAccessDeniedError
  | AccountNotActiveError
  | InsufficientFundsError
  | BeneficiaryNotFoundError
  | BeneficiaryAccessDeniedError
  | BeneficiaryNotVerifiedError
  | TransferFailedError
deriving DecidableEq, Repr

/-- Database state seen by `TransferService`. -/
structure TransferState where
  accounts : List Account
  beneficiaries : List Beneficiary
  transfers : List TransferRow
deriving DecidableEq, Repr

namespace TransferService

/-- `TransferService._get_beneficiary`. -/
def get_beneficiary (l : List Beneficiary) (beneficiary_id : Nat) :
    Option Beneficiary :=
  l.find? (fun b => b.id == beneficiary_id)

/-- `TransferService.create_transfer`: validations in source order (amount,
source account existence / ownership / active status / funds, beneficiary
existence / ownership / verification), then inside one database transaction
a `PENDING` transfer row is inserted, the source balance decreased and the
row flipped to `COMPLETED`; any exception there (modelled by `fault`) rolls
back and raises `TransferFailedError`. -/
def create_transfer (s : TransferState) (user_id sender_account_id
    beneficiary_id : Nat) (amount : Rat) (ref : String) (fault : Bool) :
    TransferState × Except TransferErr TransferRow :=
  if amount ≤ 0 then
    (s, .error .InvalidTransferAmountError)
  else
    match s.accounts.find? (fun a => a.id == sender_account_id) with
    | none => (s, .error .AccountNotFoundError)
    | some source_account =>
      if source_account.user_id ≠ user_id then
        (s, .error .TransferAccessDeniedError)
      else if source_account.status ≠ .ACTIVE then
        (s, .error .AccountNotActiveError)
      else if source_account.balance < amount then
        (s, .error .InsufficientFundsError)
      else
        match get_beneficiary s.beneficiaries beneficiary_id with
        | none => (s, .error .BeneficiaryNotFoundError)
        | some beneficiary =>
          if beneficiary.user_id ≠ user_id then
            (s, .error .BeneficiaryAccessDeniedError)
          else if beneficiary.is_verified = false then
            (s, .error .BeneficiaryNotVerifiedError)
          else if fault then
            (s, .error .TransferFailedError)
          else
            let row : TransferRow :=
              { sender_account_id := sender_account_id
                beneficiary_id := beneficiary_id
                type := .TRANSFER
                amount := amount
                reference := ref
                status := .COMPLETED }
            ({ s with
                accounts :=
                  mapBalance s.accounts sender_account_id (· - amount)
                transfers := s.transfers ++ [row] }, .ok row)

end TransferService

/-! ## Helper lemmas -/

theorem get_account_mem {l : List Account} {i : Nat} {a : Account}
    (h : AccountService.get_account l i = some a) : a ∈ l :=
  List.mem_of_find?_eq_some h

theorem get_account_id {l : List Account} {i : Nat} {a : Account}
    (h : AccountService.get_account l i = some a) : a.id = i := by
  have := List.find?_some h
  simpa using this

theorem get_user_account_ok {l : List Account} {i u : Nat} {a : Account}
    (h : AccountService.get_user_account l i u = .ok a) :
    AccountService.get_account l i = some a ∧ a.user_id = u := by
  unfold AccountService.get_user_account AccountService.get_account_by_id at h
  cases hf : AccountService.get_account l i with
  | none => rw [hf] at h; simp [Bind.bind, Except.bind] at h
  | some b =>
      rw [hf] at h
      by_cases hu : b.user_id = u <;>
        simp [Bind.bind, Except.bind, hu] at h <;> simp_all

theorem mem_mapBalance {l : List Account} {i : Nat} {f : Rat → Rat}
    {a' : Account} (h : a' ∈ mapBalance l i f) :
    ∃ a ∈ l, a' = if a.id == i then { a with balance := f a.balance } else a := by
  obtain ⟨a, ha, rfl⟩ := List.mem_map.mp h
  exact ⟨a, ha, rfl⟩

theorem mapBalance_map_id (l : List Account) (i : Nat) (f : Rat → Rat) :
    (mapBalance l i f).map Account.id = l.map Account.id := by
  unfold mapBalance
  rw [List.map_map]
  apply List.map_congr_left
  intro a _
  by_cases h : a.id = i <;> simp [h]

theorem eq_of_mem_of_nodup_id {l : List Account}
    (hnd : (l.map Account.id).Nodup) {a b : Account}
    (ha : a ∈ l) (hb : b ∈ l) (h : a.id = b.id) : a = b :=
  List.inj_on_of_nodup_map hnd ha hb h

theorem get_account_mapBalance (l : List Account) (i j : Nat) (f : Rat → Rat) :
    AccountService.get_account (mapBalance l i f) j =
      (AccountService.get_account l j).map
        (fun a => if a.id == i then { a with balance := f a.balance } else a) := by
  unfold AccountService.get_account mapBalance
  rw [List.find?_map]
  have hp : ((fun a : Account => a.id == j) ∘ fun a =>
      if a.id == i then { a with balance := f a.balance } else a) =
      (fun a : Account => a.id == j) := by
    funext a
    by_cases h : a.id = i <;> simp [h]
  rw [hp]

theorem balanceOf_mapBalance_self {l : List Account} {i : Nat} {a : Account}
    (h : AccountService.get_account l i = some a) (f : Rat → Rat) :
    balanceOf (mapBalance l i f) i = f a.balance := by
  have hid : a.id = i := get_account_id h
  unfold balanceOf
  rw [get_account_mapBalance, h]
  simp [hid]

theorem balanceOf_mapBalance_ne {l : List Account} {i j : Nat}
    (hne : j ≠ i) (f : Rat → Rat) :
    balanceOf (mapBalance l i f) j = balanceOf l j := by
  unfold balanceOf
  rw [get_account_mapBalance]
  cases h : AccountService.get_account l j with
  | none => simp
  | some a =>
      have hid : a.id ≠ i := by rw [get_account_id h]; exact hne
      simp [h, hid]

/-! ## C9 -/

/-- C9: `AccountService.get_user_account` fails with
`AccountNotFoundError` when no account with the id exists (regardless of
the caller), fails with `AccountAccessDeniedError` when the account exists
but belongs to another user, and returns the account when the caller owns
it; the existence check is evaluated before the ownership check. -/
theorem get_user_account_spec (l : List Account) (account_id user_id : Nat) :
    (AccountService.get_account l account_id = none →
      AccountService.get_user_account l account_id user_id =
        .error .AccountNotFoundError) ∧
    (∀ a, AccountService.get_account l account_id = some a →
      a.user_id ≠ user_id →
      AccountService.get_user_account l account_id user_id =
        .error .AccountAccessDeniedError) ∧
    (∀ a, AccountService.get_account l account_id = some a →
      a.user_id = user_id →
      AccountService.get_user_account l account_id user_id = .ok a) := by
  refine ⟨?_, ?_, ?_⟩
  · intro h
    simp [AccountService.get_user_account, AccountService.get_account_by_id, h,
      Bind.bind, Except.bind]
  · intro a h hu
    simp [AccountService.get_user_account, AccountService.get_account_by_id, h,
      Bind.bind, Except.bind, hu]
  · intro a h hu
    simp [AccountService.get_user_account, AccountService.get_account_by_id, h,
      Bind.bind, Except.bind, hu]

/-- Witness for C9 at a concrete store: a probe for a missing id gets
`AccountNotFoundError`, a non-owner gets `AccountAccessDeniedError`, and
the owner gets the account. -/
theorem get_user_account_spec_witness :
    AccountService.get_user_account
      [{ id := 1, user_id := 7, balance := 100 }] 2 9 =
        .error .AccountNotFoundError ∧
    AccountService.get_user_account
      [{ id := 1, user_id := 7, balance := 100 }] 1 9 =
        .error .AccountAccessDeniedError ∧
    AccountService.get_user_account
      [{ id := 1, user_id := 7, balance := 100 }] 1 7 =
        .ok { id := 1, user_id := 7, balance := 100 } :=
  ⟨(get_user_account_spec [{ id := 1, user_id := 7, balance := 100 }] 2 9).1
      (by decide),
   (get_user_account_spec [{ id := 1, user_id := 7, balance := 100 }] 1 9).2.1
      { id := 1, user_id := 7, balance := 100 } (by decide) (by decide),
   (get_user_account_spec [{ id := 1, user_id := 7, balance := 100 }] 1 7).2.2
      { id := 1, user_id := 7, balance := 100 } (by decide) (by decide)⟩

/-! ## C4 -/

/-- C4 counterexample: the account with id 1 is `BLOCKED` (status ≠
`ACTIVE`), yet `AccountService.deposit` of a positive amount is accepted
and increases the balance from 10 to 60 — the source has no
`AccountNotActive` check on the deposit path. -/
theorem deposit_ignores_status_counterexample :
    (AccountService.get_account
        [{ id := 1, user_id := 7, balance := 10, status := .BLOCKED }] 1).map
      Account.status = some .BLOCKED ∧
    (AccountService.deposit
        { accounts := [{ id := 1, user_id := 7, balance := 10,
                         status := .BLOCKED }],
          transactions := [] } 1 7 50).map
      (fun s => balanceOf s.accounts 1) = .ok 60 := by
  constructor
  · rfl
  · with_unfolding_all rfl

/-- C4 amended: `AccountService.deposit` fails with `InvalidAmountError`
when the amount is non-positive; otherwise it propagates the
`get_user_account` failure (`AccountNotFoundError`/`AccountAccessDeniedError`)
when there is one, and else increases the account's balance by the amount
and persists it — regardless of the account's status (the source performs
no `AccountNotActive` check on this path). -/
theorem deposit_spec (s : BankState) (account_id user_id : Nat)
    (amount : Rat) :
    (amount ≤ 0 →
      AccountService.deposit s account_id user_id amount =
        .error .InvalidAmountError) ∧
    (∀ e, ¬ amount ≤ 0 →
      AccountService.get_user_account s.accounts account_id user_id =
        .error e →
      AccountService.deposit s account_id user_id amount = .error e) ∧
    (∀ a, ¬ amount ≤ 0 →
      AccountService.get_user_account s.accounts account_id user_id = .ok a →
      AccountService.deposit s account_id user_id amount =
        .ok { s with
              accounts := (mapBalance s.accounts account_id (· + amount)) } ∧
      balanceOf (mapBalance s.accounts account_id (· + amount)) account_id =
        balanceOf s.accounts account_id + amount) := by
  refine ⟨?_, ?_, ?_⟩
  · intro h
    simp [AccountService.deposit, h]
  · intro e h he
    simp [AccountService.deposit, h, he, Bind.bind, Except.bind]
  · intro a h ha
    obtain ⟨hf, _⟩ := get_user_account_ok ha
    refine ⟨by simp [AccountService.deposit, h, ha, Bind.bind, Except.bind], ?_⟩
    rw [balanceOf_mapBalance_self hf]
    unfold balanceOf
    rw [hf]
    rfl

/-- Witness for C4: depositing 50 into an owned account with balance 10
yields balance 60, and a deposit of 0 is rejected with
`InvalidAmountError`. -/
theorem deposit_spec_witness :
    AccountService.deposit
        { accounts := [{ id := 1, user_id := 7, balance := 10,
                         status := .BLOCKED }],
          transactions := [] } 1 7 0 = .error .InvalidAmountError ∧
    balanceOf (mapBalance
        [{ id := 1, user_id := 7, balance := 10, status := .BLOCKED }] 1
        (· + 50)) 1 =
      balanceOf
        [{ id := 1, user_id := 7, balance := 10, status := .BLOCKED }] 1
        + 50 :=
  ⟨(deposit_spec
      { accounts := [{ id := 1, user_id := 7, balance := 10,
                       status := .BLOCKED }],
        transactions := [] } 1 7 0).1 (by norm_num),
   ((deposit_spec
      { accounts := [{ id := 1, user_id := 7, balance := 10,
                       status := .BLOCKED }],
        transactions := [] } 1 7 50).2.2
      { id := 1, user_id := 7, balance := 10, status := .BLOCKED }
      (by norm_num) (by decide)).2⟩

/-! ## C1 -/

theorem nonneg_mapBalance_add {l : List Account} {i : Nat} {amount : Rat}
    (hamt : 0 ≤ amount) (hinv : ∀ a ∈ l, 0 ≤ a.balance) :
    ∀ a ∈ mapBalance l i (· + amount), 0 ≤ a.balance := by
  intro a' h'
  obtain ⟨a, ha, rfl⟩ := mem_mapBalance h'
  by_cases h : a.id = i
  · simp only [h, beq_self_eq_true, if_true]
    exact add_nonneg (hinv a ha) hamt
  · simp only [beq_iff_eq, h, if_false]
    exact hinv a ha

theorem nonneg_mapBalance_sub {l : List Account} {i : Nat} {amount : Rat}
    {a0 : Account} (hnd : (l.map Account.id).Nodup)
    (hinv : ∀ a ∈ l, 0 ≤ a.balance)
    (hfind : AccountService.get_account l i = some a0)
    (hge : amount ≤ a0.balance) :
    ∀ a ∈ mapBalance l i (· - amount), 0 ≤ a.balance := by
  intro a' h'
  obtain ⟨a, ha, rfl⟩ := mem_mapBalance h'
  by_cases h : a.id = i
  · have haeq : a = a0 := by
      refine eq_of_mem_of_nodup_id hnd ha (get_account_mem hfind) ?_
      rw [h, get_account_id hfind]
    simp only [h, beq_self_eq_true, if_true]
    subst haeq
    simpa using sub_nonneg.mpr hge
  · simp only [beq_iff_eq, h, if_false]
    exact hinv a ha

theorem applyOp_preserves {s : BankState} {op : AccountOp} {s' : BankState}
    (hnd : (s.accounts.map Account.id).Nodup)
    (hinv : ∀ a ∈ s.accounts, 0 ≤ a.balance)
    (h : applyOp s op = .ok s') :
    (s'.accounts.map Account.id).Nodup ∧ ∀ a ∈ s'.accounts, 0 ≤ a.balance := by
  cases op with
  | deposit account_id user_id amount =>
      simp only [applyOp] at h
      unfold AccountService.deposit at h
      by_cases hamt : amount ≤ 0
      · simp [hamt] at h
      · rw [if_neg hamt] at h
        cases hga : AccountService.get_user_account s.accounts account_id
            user_id with
        | error e => rw [hga] at h; simp [Bind.bind, Except.bind] at h
        | ok a =>
            rw [hga] at h
            simp only [Bind.bind, Except.bind, Except.ok.injEq] at h
            subst h
            refine ⟨by rw [mapBalance_map_id]; exact hnd, ?_⟩
            exact nonneg_mapBalance_add (le_of_lt (lt_of_not_le hamt)) hinv
  | withdraw account_id user_id amount =>
      simp only [applyOp] at h
      unfold AccountService.withdraw at h
      by_cases hamt : amount ≤ 0
      · simp [hamt] at h
      · rw [if_neg hamt] at h
        cases hga : AccountService.get_user_account s.accounts account_id
            user_id with
        | error e => rw [hga] at h; simp [Bind.bind, Except.bind] at h
        | ok a =>
            rw [hga] at h
            simp only [Bind.bind, Except.bind] at h
            by_cases hbal : a.balance < amount
            · simp [hbal] at h
            · rw [if_neg hbal] at h
              simp only [Except.ok.injEq] at h
              subst h
              obtain ⟨hfind, _⟩ := get_user_account_ok hga
              refine ⟨by rw [mapBalance_map_id]; exact hnd, ?_⟩
              exact nonneg_mapBalance_sub hnd hinv hfind (le_of_not_lt hbal)
  | transfer src user_id tgt amount ref =>
      simp only [applyOp] at h
      unfold AccountService.transfer at h
      by_cases hamt : amount ≤ 0
      · simp [hamt] at h
      · rw [if_neg hamt] at h
        cases hga : AccountService.get_user_account s.accounts src
            user_id with
        | error e => rw [hga] at h; simp [Bind.bind, Except.bind] at h
        | ok a =>
            rw [hga] at h
            simp only [Bind.bind, Except.bind] at h
            cases hgt : AccountService.get_account_by_id s.accounts tgt with
            | error e => rw [hgt] at h; simp at h
            | ok t =>
                rw [hgt] at h
                simp only at h
                by_cases htu : t.user_id ≠ user_id
                · simp [htu] at h
                · rw [if_neg htu] at h
                  by_cases hbal : a.balance < amount
                  · simp [hbal] at h
                  · rw [if_neg hbal] at h
                    simp only [Except.ok.injEq] at h
                    subst h
                    obtain ⟨hfind, _⟩ := get_user_account_ok hga
                    have hnd1 : ((mapBalance s.accounts src (· - amount)).map
                        Account.id).Nodup := by
                      rw [mapBalance_map_id]; exact hnd
                    have hinv1 := nonneg_mapBalance_sub hnd hinv hfind
                      (le_of_not_lt hbal)
                    have hnd2 : (((mapBalance (mapBalance s.accounts src
                        (· - amount)) tgt (· + amount))).map
                        Account.id).Nodup := by
                      rw [mapBalance_map_id, mapBalance_map_id]; exact hnd
                    exact ⟨hnd2, nonneg_mapBalance_add
                      (le_of_lt (lt_of_not_le hamt)) hinv1⟩

/-- C1: starting from any account table with unique ids and all balances
non-negative, after any sequence of deposit / withdraw / internal-transfer
requests that were all individually accepted (none raised an error), every
balance is still non-negative. -/
theorem balances_nonneg_after_accepted_ops (s : BankState)
    (ops : List AccountOp) (s' : BankState)
    (hnd : (s.accounts.map Account.id).Nodup)
    (hinv : ∀ a ∈ s.accounts, 0 ≤ a.balance)
    (h : runAccepted s ops = some s') :
    ∀ a ∈ s'.accounts, 0 ≤ a.balance := by
  induction ops generalizing s with
  | nil =>
      unfold runAccepted at h
      cases h
      exact hinv
  | cons op rest ih =>
      unfold runAccepted at h
      cases happ : applyOp s op with
      | error e => rw [happ] at h; cases h
      | ok s1 =>
          rw [happ] at h
          obtain ⟨hnd1, hinv1⟩ := applyOp_preserves hnd hinv happ
          exact ih s1 hnd1 hinv1 h

/-- Concrete two-account store for the C1 witness. -/
def c1_state : BankState :=
  { accounts := [{ id := 1, user_id := 7, balance := 100 },
                 { id := 2, user_id := 7, balance := 0 }]
    transactions := [] }

/-- Concrete accepted sequence for the C1 witness: deposit 30 on account 2,
withdraw 50 from account 1, transfer 25 from account 1 to account 2. -/
def c1_ops : List AccountOp :=
  [.deposit 2 7 30, .withdraw 1 7 50, .transfer 1 7 2 25 "INT_ref"]

/-- Witness for C1: the concrete sequence `c1_ops` is accepted end to end
on `c1_state` and every final balance is non-negative. -/
theorem balances_nonneg_witness :
    ((runAccepted c1_state c1_ops).getD c1_state).accounts.all
      (fun a => decide (0 ≤ a.balance)) = true := by
  rw [List.all_eq_true]
  intro a ha
  exact decide_eq_true
    (balances_nonneg_after_accepted_ops c1_state c1_ops
      ((runAccepted c1_state c1_ops).getD c1_state)
      (by decide) (by decide) (by with_unfolding_all rfl) a ha)

/-! ## C10 -/

/-- C10 counterexample: an internal transfer whose source and target are
the same account (id 1, balance 100, owned by the caller, amount 50 ≤
balance) is accepted by `AccountService.transfer`, yet the source balance
does not decrease by the amount: both balance mutations hit the same ORM
object and cancel, leaving the balance at 100 ≠ 100 - 50. -/
theorem transfer_self_counterexample :
    (AccountService.transfer
        { accounts := [{ id := 1, user_id := 7, balance := 100 }],
          transactions := [] } 1 7 1 50 "INT_ref").map
      (fun s => balanceOf s.accounts 1) = .ok 100 ∧
    (100:Rat) ≠ 100 - 50 := by
  constructor
  · with_unfolding_all rfl
  · norm_num

/-- C10 amended: for every internal transfer accepted by
`AccountService.transfer` whose source and target accounts are distinct,
the source balance decreases by exactly the amount, the target balance
increases by exactly the amount (so the sum of the two balances is
conserved), and exactly one `TRANSFER` transaction row with status
`COMPLETED`, that amount and the source account as sender is appended.
(When source = target the two mutations hit the same row and cancel, while
the transaction row is still created.) -/
theorem transfer_moves_amount (s : BankState)
    (src user_id tgt : Nat) (amount : Rat) (ref : String) (s' : BankState)
    (hne : src ≠ tgt)
    (h : AccountService.transfer s src user_id tgt amount ref = .ok s') :
    balanceOf s'.accounts src = balanceOf s.accounts src - amount ∧
    balanceOf s'.accounts tgt = balanceOf s.accounts tgt + amount ∧
    balanceOf s'.accounts src + balanceOf s'.accounts tgt =
      balanceOf s.accounts src + balanceOf s.accounts tgt ∧
    s'.transactions = s.transactions ++
      [{ sender_account_id := src, type := .TRANSFER, amount := amount,
         reference := ref, status := .COMPLETED }] := by
  unfold AccountService.transfer at h
  by_cases hamt : amount ≤ 0
  · simp [hamt] at h
  · rw [if_neg hamt] at h
    cases hga : AccountService.get_user_account s.accounts src user_id with
    | error e => rw [hga] at h; simp [Bind.bind, Except.bind] at h
    | ok a =>
        rw [hga] at h
        simp only [Bind.bind, Except.bind] at h
        cases hgt : AccountService.get_account_by_id s.accounts tgt with
        | error e => rw [hgt] at h; simp at h
        | ok t =>
            rw [hgt] at h
            simp only at h
            by_cases htu : t.user_id ≠ user_id
            · simp [htu] at h
            · rw [if_neg htu] at h
              by_cases hbal : a.balance < amount
              · simp [hbal] at h
              · rw [if_neg hbal] at h
                simp only [Except.ok.injEq] at h
                subst h
                obtain ⟨hfinds, _⟩ := get_user_account_ok hga
                have hfindt : AccountService.get_account s.accounts tgt
                    = some t := by
                  unfold AccountService.get_account_by_id at hgt
                  cases hg : AccountService.get_account s.accounts tgt with
                  | none => rw [hg] at hgt; cases hgt
                  | some b => rw [hg] at hgt; cases hgt; rfl
                have hsrc : balanceOf
                    (mapBalance (mapBalance s.accounts src (· - amount)) tgt
                      (· + amount)) src = a.balance - amount := by
                  rw [balanceOf_mapBalance_ne hne,
                    balanceOf_mapBalance_self hfinds]
                have htgtfind1 : AccountService.get_account
                    (mapBalance s.accounts src (· - amount)) tgt = some t := by
                  rw [get_account_mapBalance, hfindt]
                  have : t.id ≠ src := by
                    rw [get_account_id hfindt]; exact (Ne.symm hne)
                  simp [this]
                have htgt : balanceOf
                    (mapBalance (mapBalance s.accounts src (· - amount)) tgt
                      (· + amount)) tgt = t.balance + amount := by
                  rw [balanceOf_mapBalance_self htgtfind1]
                have hbsrc : balanceOf s.accounts src = a.balance := by
                  unfold balanceOf; rw [hfinds]; rfl
                have hbtgt : balanceOf s.accounts tgt = t.balance := by
                  unfold balanceOf; rw [hfindt]; rfl
                refine ⟨?_, ?_, ?_, rfl⟩
                · rw [hsrc, hbsrc]
                · rw [htgt, hbtgt]
                · rw [hsrc, htgt, hbsrc, hbtgt]; ring

/-- Witness for C10: on a concrete two-account store, transferring 30 from
account 1 (balance 100) to account 2 (balance 5) gives balances 70 and 35,
conserves the sum, and appends the single `COMPLETED` `TRANSFER` row. -/
theorem transfer_moves_amount_witness :
    balanceOf ((AccountService.transfer
        { accounts := [{ id := 1, user_id := 7, balance := 100 },
                       { id := 2, user_id := 7, balance := 5 }],
          transactions := [] } 1 7 2 30 "INT_ref").toOption.getD
          { accounts := [], transactions := [] }).accounts 1 =
      balanceOf [{ id := 1, user_id := 7, balance := 100 },
                 { id := 2, user_id := 7, balance := 5 }] 1 - 30 ∧
    balanceOf ((AccountService.transfer
        { accounts := [{ id := 1, user_id := 7, balance := 100 },
                       { id := 2, user_id := 7, balance := 5 }],
          transactions := [] } 1 7 2 30 "INT_ref").toOption.getD
          { accounts := [], transactions := [] }).accounts 2 =
      balanceOf [{ id := 1, user_id := 7, balance := 100 },
                 { id := 2, user_id := 7, balance := 5 }] 2 + 30 ∧
    balanceOf ((AccountService.transfer
        { accounts := [{ id := 1, user_id := 7, balance := 100 },
                       { id := 2, user_id := 7, balance := 5 }],
          transactions := [] } 1 7 2 30 "INT_ref").toOption.getD
          { accounts := [], transactions := [] }).accounts 1 +
      balanceOf ((AccountService.transfer
        { accounts := [{ id := 1, user_id := 7, balance := 100 },
                       { id := 2, user_id := 7, balance := 5 }],
          transactions := [] } 1 7 2 30 "INT_ref").toOption.getD
          { accounts := [], transactions := [] }).accounts 2 =
      balanceOf [{ id := 1, user_id := 7, balance := 100 },
                 { id := 2, user_id := 7, balance := 5 }] 1 +
      balanceOf [{ id := 1, user_id := 7, balance := 100 },
                 { id := 2, user_id := 7, balance := 5 }] 2 ∧
    ((AccountService.transfer
        { accounts := [{ id := 1, user_id := 7, balance := 100 },
                       { id := 2, user_id := 7, balance := 5 }],
          transactions := [] } 1 7 2 30 "INT_ref").toOption.getD
          { accounts := [], transactions := [] }).transactions =
      [] ++ [{ sender_account_id := 1, type := .TRANSFER, amount := 30,
               reference := "INT_ref", status := .COMPLETED }] :=
  transfer_moves_amount
    { accounts := [{ id := 1, user_id := 7, balance := 100 },
                   { id := 2, user_id := 7, balance := 5 }],
      transactions := [] } 1 7 2 30 "INT_ref"
    ((AccountService.transfer
        { accounts := [{ id := 1, user_id := 7, balance := 100 },
                       { id := 2, user_id := 7, balance := 5 }],
          transactions := [] } 1 7 2 30 "INT_ref").toOption.getD
          { accounts := [], transactions := [] })
    (by decide) (by with_unfolding_all rfl)

/-! ## C2 -/

/-- C2: for credit, debit and beneficiary transfer, if all validations pass
(witnessed by the fault-free run succeeding) and an exception occurs inside
the `try:` block — after validation, e.g. between the balance mutation and
the transaction-row insert (`fault := true`) — the database transaction is
rolled back and `TransactionFailedError`/`TransferFailedError` is raised:
the committed state is exactly the pre-call state, so every balance is
unchanged and no transaction/transfer row (in particular no `PENDING` one)
is observable. -/
theorem rollback_on_fault (s : BankState) (ts : TransferState)
    (user_id account_id sender_account_id beneficiary_id : Nat)
    (amount : Rat) (ref : String) :
    ((∃ tx, (TransactionService.credit s user_id account_id amount ref
        false).2 = .ok tx) →
      TransactionService.credit s user_id account_id amount ref true =
        (s, .error .TransactionFailedError)) ∧
    ((∃ tx, (TransactionService.debit s user_id account_id amount ref
        false).2 = .ok tx) →
      TransactionService.debit s user_id account_id amount ref true =
        (s, .error .TransactionFailedError)) ∧
    ((∃ row, (TransferService.create_transfer ts user_id sender_account_id
        beneficiary_id amount ref false).2 = .ok row) →
      TransferService.create_transfer ts user_id sender_account_id
        beneficiary_id amount ref true =
        (ts, .error .TransferFailedError)) := by
  refine ⟨?_, ?_, ?_⟩
  · rintro ⟨tx, htx⟩
    unfold TransactionService.credit at htx ⊢
    split at htx
    · simp at htx
    · split at htx
      · simp at htx
      · split at htx
        · simp at htx
        · split at htx
          · simp at htx
          · simp_all
  · rintro ⟨tx, htx⟩
    unfold TransactionService.debit at htx ⊢
    split at htx
    · simp at htx
    · split at htx
      · simp at htx
      · split at htx
        · simp at htx
        · split at htx
          · simp at htx
          · split at htx
            · simp at htx
            · simp_all
              rw [if_neg (not_le.mpr (by assumption)),
                if_neg (not_lt.mpr (by assumption))]
  · rintro ⟨row, hrow⟩
    unfold TransferService.create_transfer at hrow ⊢
    split at hrow
    · simp at hrow
    · split at hrow
      · simp at hrow
      · split at hrow
        · simp at hrow
        · split at hrow
          · simp at hrow
          · split at hrow
            · simp at hrow
            · split at hrow
              · simp at hrow
              · split at hrow
                · simp at hrow
                · split at hrow
                  · simp at hrow
                  · simp_all
                    rw [if_neg (not_le.mpr (by assumption)),
                      if_neg (not_lt.mpr (by assumption))]

/-- Concrete states for the C2 witness: one active owned account with
balance 100, and one verified beneficiary owned by the same user. -/
def c2_state : BankState :=
  { accounts := [{ id := 1, user_id := 7, balance := 100 }]
    transactions := [] }

/-- Transfer-service state for the C2 witness. -/
def c2_tstate : TransferState :=
  { accounts := [{ id := 1, user_id := 7, balance := 100 }]
    beneficiaries := [{ id := 3, user_id := 7, name := "n",
                        bank_name := "b", iban := "i", is_verified := true }]
    transfers := [] }

/-- Witness for C2: on `c2_state`/`c2_tstate` the fault-free
credit/debit/transfer succeed, so the faulted runs leave the committed
state untouched and raise the failure errors. -/
theorem rollback_on_fault_witness :
    TransactionService.credit c2_state 7 1 40 "ref" true =
      (c2_state, .error .TransactionFailedError) ∧
    TransactionService.debit c2_state 7 1 40 "ref" true =
      (c2_state, .error .TransactionFailedError) ∧
    TransferService.create_transfer c2_tstate 7 1 3 40 "ref" true =
      (c2_tstate, .error .TransferFailedError) := by
  obtain ⟨h1, h2, h3⟩ := rollback_on_fault c2_state c2_tstate 7 1 1 3 40 "ref"
  refine ⟨?_, ?_, ?_⟩
  · refine h1 ⟨{ sender_account_id := 1, type := .CREDIT, amount := 40,
                 reference := "ref", status := .COMPLETED }, ?_⟩
    with_unfolding_all rfl
  · refine h2 ⟨{ sender_account_id := 1, type := .DEBIT, amount := 40,
                 reference := "ref", status := .COMPLETED }, ?_⟩
    with_unfolding_all rfl
  · refine h3 ⟨{ sender_account_id := 1, beneficiary_id := 3,
                 type := .TRANSFER, amount := 40, reference := "ref",
                 status := .COMPLETED }, ?_⟩
    with_unfolding_all rfl

/-! ## C3 -/

/-- C3: `TransferService.create_transfer` rejects any call whose target
beneficiary is not owned by the initiating user or not verified: the
committed state is exactly the pre-call state (source balance unchanged,
no transfer row created); when the account-stage validations pass, the
error is `BeneficiaryAccessDeniedError` for a foreign beneficiary and
`BeneficiaryNotVerifiedError` for an owned but unverified one; and a
transfer only ever succeeds against a beneficiary that is both owned by
the user and verified. -/
theorem transfer_beneficiary_gating (ts : TransferState)
    (user_id sender_account_id beneficiary_id : Nat) (amount : Rat)
    (ref : String) (fault : Bool) :
    (∀ b, TransferService.get_beneficiary ts.beneficiaries beneficiary_id =
        some b →
      (b.user_id ≠ user_id ∨ b.is_verified = false) →
      (TransferService.create_transfer ts user_id sender_account_id
          beneficiary_id amount ref fault).1 = ts ∧
      ∃ e, (TransferService.create_transfer ts user_id sender_account_id
          beneficiary_id amount ref fault).2 = .error e) ∧
    (∀ a b, ¬ amount ≤ 0 →
      ts.accounts.find? (fun x => x.id == sender_account_id) = some a →
      a.user_id = user_id → a.status = .ACTIVE → ¬ a.balance < amount →
      TransferService.get_beneficiary ts.beneficiaries beneficiary_id =
        some b →
      (b.user_id ≠ user_id →
        TransferService.create_transfer ts user_id sender_account_id
          beneficiary_id amount ref fault =
          (ts, .error .BeneficiaryAccessDeniedError)) ∧
      (b.user_id = user_id → b.is_verified = false →
        TransferService.create_transfer ts user_id sender_account_id
          beneficiary_id amount ref fault =
          (ts, .error .BeneficiaryNotVerifiedError))) ∧
    (∀ ts2 row, TransferService.create_transfer ts user_id sender_account_id
        beneficiary_id amount ref fault = (ts2, .ok row) →
      ∃ b, TransferService.get_beneficiary ts.beneficiaries beneficiary_id =
        some b ∧ b.user_id = user_id ∧ b.is_verified = true) := by
  refine ⟨?_, ?_, ?_⟩
  · intro b hb hbad
    unfold TransferService.create_transfer
    repeat' split
    any_goals exact ⟨rfl, _, rfl⟩
    all_goals exfalso
    all_goals rcases hbad with hb1 | hb2 <;> simp_all
  · intro a b hamt ha hu hst hbal hb
    unfold TransferService.create_transfer
    rw [if_neg hamt]
    simp only [ha]
    rw [if_neg (not_not_intro hu), if_neg (not_not_intro hst), if_neg hbal]
    simp only [hb]
    constructor
    · intro hbu
      rw [if_pos hbu]
    · intro hbu hbv
      rw [if_neg (not_not_intro hbu), if_pos hbv]
  · intro ts2 row h
    unfold TransferService.create_transfer at h
    split at h
    · simp at h
    · cases hf : ts.accounts.find? (fun x => x.id == sender_account_id) with
      | none => rw [hf] at h; simp at h
      | some a =>
          rw [hf] at h
          simp only at h
          by_cases hu : a.user_id ≠ user_id
          · rw [if_pos hu] at h; simp at h
          · rw [if_neg hu] at h
            by_cases hst : a.status ≠ AccountStatus.ACTIVE
            · rw [if_pos hst] at h; simp at h
            · rw [if_neg hst] at h
              by_cases hbal : a.balance < amount
              · rw [if_pos hbal] at h; simp at h
              · rw [if_neg hbal] at h
                cases hgb : TransferService.get_beneficiary ts.beneficiaries
                    beneficiary_id with
                | none => rw [hgb] at h; simp at h
                | some b =>
                    rw [hgb] at h
                    simp only at h
                    by_cases hbu : b.user_id ≠ user_id
                    · rw [if_pos hbu] at h; simp at h
                    · rw [if_neg hbu] at h
                      by_cases hbv : b.is_verified = false
                      · rw [if_pos hbv] at h; simp at h
                      · rw [if_neg hbv] at h
                        exact ⟨b, rfl, not_not.mp hbu,
                          Bool.not_eq_false b.is_verified ▸ hbv⟩

/-- Concrete state for the C3 witness: an unverified beneficiary (id 3)
and a beneficiary owned by another user (id 4). -/
def c3_tstate : TransferState :=
  { accounts := [{ id := 1, user_id := 7, balance := 100 }]
    beneficiaries := [{ id := 3, user_id := 7, name := "n",
                        bank_name := "b", iban := "i", is_verified := false },
                      { id := 4, user_id := 9, name := "m",
                        bank_name := "b", iban := "j", is_verified := true }]
    transfers := [] }

/-- Witness for C3: on `c3_tstate`, a transfer to the foreign beneficiary 4
fails with `BeneficiaryAccessDeniedError` and a transfer to the owned but
unverified beneficiary 3 fails with `BeneficiaryNotVerifiedError`; in both
cases the committed state is unchanged. -/
theorem transfer_beneficiary_gating_witness :
    TransferService.create_transfer c3_tstate 7 1 4 40 "ref" false =
      (c3_tstate, .error .BeneficiaryAccessDeniedError) ∧
    TransferService.create_transfer c3_tstate 7 1 3 40 "ref" false =
      (c3_tstate, .error .BeneficiaryNotVerifiedError) := by
  constructor
  · exact ((transfer_beneficiary_gating c3_tstate 7 1 4 40 "ref" false).2.1
      { id := 1, user_id := 7, balance := 100 }
      { id := 4, user_id := 9, name := "m", bank_name := "b", iban := "j",
        is_verified := true }
      (by norm_num) (by decide) rfl rfl (by norm_num) (by decide)).1
      (by decide)
  · exact ((transfer_beneficiary_gating c3_tstate 7 1 3 40 "ref" false).2.1
      { id := 1, user_id := 7, balance := 100 }
      { id := 3, user_id := 7, name := "n", bank_name := "b", iban := "i",
        is_verified := false }
      (by norm_num) (by decide) rfl rfl (by norm_num) (by decide)).2
      rfl rfl

/-! ## OTP helper lemmas -/

theorem is_valid_iff {now : Nat} {otp : OTP} :
    OTPService.is_valid now otp = true ↔
      otp.is_used = false ∧ otp.attempts < otp.max_attempts ∧
        ¬ otp.expires_at < now := by
  unfold OTPService.is_valid
  by_cases h1 : otp.is_used <;>
    by_cases h2 : otp.max_attempts ≤ otp.attempts <;>
      by_cases h3 : otp.expires_at < now <;>
        simp [h1, h2, h3] <;> omega

theorem unused_for_true {u : Nat} {p : OTPPurpose} {o : OTP}
    (h : OTPService.unused_for u p o = true) :
    o.user_id = u ∧ o.purpose = p ∧ o.is_used = false := by
  unfold OTPService.unused_for at h
  simp only [Bool.and_eq_true, beq_iff_eq] at h
  exact ⟨h.1.1, h.1.2, h.2⟩

theorem most_recent_mem :
    ∀ {l : List OTP} {o : OTP}, OTPService.most_recent l = some o → o ∈ l := by
  intro l
  induction l with
  | nil => intro o h; cases h
  | cons x rest ih =>
      intro o h
      unfold OTPService.most_recent at h
      cases hm : OTPService.most_recent rest with
      | none => simp only [hm] at h; cases h; exact List.mem_cons_self x rest
      | some b =>
          simp only [hm] at h
          by_cases hc : x.created_at < b.created_at
          · rw [if_pos hc] at h
            cases h
            exact List.mem_cons_of_mem x (ih hm)
          · rw [if_neg hc] at h
            cases h
            exact List.mem_cons_self x rest

theorem most_recent_nil_iff {l : List OTP} :
    OTPService.most_recent l = none ↔ l = [] := by
  cases l with
  | nil => simp [OTPService.most_recent]
  | cons x rest =>
      simp only [OTPService.most_recent]
      constructor
      · intro h
        cases hm : OTPService.most_recent rest with
        | none => simp only [hm] at h; cases h
        | some b =>
            simp only [hm] at h
            by_cases hc : x.created_at < b.created_at
            · rw [if_pos hc] at h; cases h
            · rw [if_neg hc] at h; cases h
      · intro h; cases h

theorem get_active_otp_some {now : Nat} {otps : List OTP} {u : Nat}
    {p : OTPPurpose} {otp : OTP}
    (h : OTPService.get_active_otp now otps u p = some otp) :
    otp ∈ otps ∧ OTPService.unused_for u p otp = true ∧
      OTPService.is_valid now otp = true := by
  unfold OTPService.get_active_otp at h
  cases hm : OTPService.most_recent
      (otps.filter (OTPService.unused_for u p)) with
  | none => simp only [hm] at h; cases h
  | some o =>
      simp only [hm] at h
      by_cases hv : OTPService.is_valid now o = true
      · rw [if_pos hv] at h
        cases h
        have hmem := most_recent_mem hm
        exact ⟨(List.mem_filter.mp hmem).1, (List.mem_filter.mp hmem).2, hv⟩
      · rw [if_neg hv] at h; cases h

theorem verify_response_success (now : Nat) (otps : List OTP) (u : Nat)
    (p : OTPPurpose) (otp : OTP) (code : String)
    (hget : OTPService.get_active_otp now otps u p = some otp)
    (hatt : otp.attempts + 1 < otp.max_attempts) (hcode : otp.code = code) :
    OTPService.verify_user_otp_response now otps u p code =
      (OTPService.updateOtp otps
        { otp with attempts := otp.attempts + 1, is_used := true,
                   used_at := some now }, true, .VERIFIED_SUCCESS) := by
  obtain ⟨hmem, huf, hval⟩ := get_active_otp_some hget
  obtain ⟨hused, hatt0, hexp⟩ := is_valid_iff.mp hval
  have hval1 : OTPService.is_valid now
      { otp with attempts := otp.attempts + 1 } = true :=
    is_valid_iff.mpr ⟨hused, hatt, hexp⟩
  have hverify : OTPService.verify_otp now otp code =
      ({ otp with attempts := otp.attempts + 1, is_used := true,
                  used_at := some now }, true) := by
    unfold OTPService.verify_otp
    rw [if_neg (by simp [hval1]), if_pos (by simp [hcode])]
  unfold OTPService.verify_user_otp_response
  simp only [hget]
  rw [if_neg (by simp [hused]), if_neg (not_le.mpr hatt0), hverify]
  rfl

theorem verify_response_mismatch (now : Nat) (otps : List OTP) (u : Nat)
    (p : OTPPurpose) (otp : OTP) (code : String)
    (hget : OTPService.get_active_otp now otps u p = some otp)
    (hcode : otp.code ≠ code) :
    OTPService.verify_user_otp_response now otps u p code =
      (OTPService.updateOtp otps { otp with attempts := otp.attempts + 1 },
        false, .INVALID_OR_EXPIRED) := by
  obtain ⟨hmem, huf, hval⟩ := get_active_otp_some hget
  obtain ⟨hused, hatt0, hexp⟩ := is_valid_iff.mp hval
  have hverify : OTPService.verify_otp now otp code =
      ({ otp with attempts := otp.attempts + 1 }, false) := by
    unfold OTPService.verify_otp
    by_cases hval1 : OTPService.is_valid now
        { otp with attempts := otp.attempts + 1 } = true
    · rw [if_neg (by simp [hval1]), if_neg (by simp [hcode])]
    · rw [if_pos (by simpa using hval1)]
  unfold OTPService.verify_user_otp_response
  simp only [hget]
  rw [if_neg (by simp [hused]), if_neg (not_le.mpr hatt0), hverify]
  rfl

/-! ## C5 -/

/-- Concrete OTP for the C5 counterexample: unused, unexpired at instant
100, `attempts = 2 < max_attempts = 3`. -/
def c5_otp : OTP :=
  { id := 1, user_id := 7, code := "123456", purpose := .TRANSACTION,
    attempts := 2, max_attempts := 3, expires_at := 1000, created_at := 5 }

/-- C5 counterexample: `c5_otp` is unused, unexpired and has
`attempts < max_attempts` at the time of the call, yet verification with
the matching code fails with `INVALID_OR_EXPIRED` and the OTP is not
marked used — `verify_otp` increments `attempts` before re-checking
validity, so the last remaining attempt can never succeed. -/
theorem verify_last_attempt_counterexample :
    c5_otp.is_used = false ∧ c5_otp.attempts < c5_otp.max_attempts ∧
    ¬ c5_otp.expires_at < 100 ∧ c5_otp.code = "123456" ∧
    OTPService.verify_user_otp_response 100 [c5_otp] 7 .TRANSACTION
      "123456" =
      ([{ c5_otp with attempts := 3 }], false, .INVALID_OR_EXPIRED) := by
  decide

/-- C5 corrected: for every OTP that is unused, unexpired and has
`attempts + 1 < max_attempts` at the time of the verification call (at
least two attempts remaining — one fewer than the claim states, because
`verify_otp` increments `attempts` before re-validating), verifying with
the matching code increments `attempts`, marks the OTP used and returns
success; a mismatching code increments `attempts` and returns the
`INVALID_OR_EXPIRED` failure. -/
theorem verify_otp_spec (now : Nat) (otps : List OTP) (user_id : Nat)
    (purpose : OTPPurpose) (otp : OTP) (code : String)
    (hget : OTPService.get_active_otp now otps user_id purpose = some otp)
    (hatt : otp.attempts + 1 < otp.max_attempts) :
    (otp.code = code →
      OTPService.verify_user_otp_response now otps user_id purpose code =
        (OTPService.updateOtp otps
          { otp with attempts := otp.attempts + 1, is_used := true,
                     used_at := some now }, true, .VERIFIED_SUCCESS)) ∧
    (otp.code ≠ code →
      OTPService.verify_user_otp_response now otps user_id purpose code =
        (OTPService.updateOtp otps { otp with attempts := otp.attempts + 1 },
          false, .INVALID_OR_EXPIRED)) :=
  ⟨fun hcode => verify_response_success now otps user_id purpose otp code
      hget hatt hcode,
   fun hcode => verify_response_mismatch now otps user_id purpose otp code
      hget hcode⟩

/-- Concrete fresh OTP for the C5 witness (`attempts = 0`,
`max_attempts = 3`). -/
def c5_fresh_otp : OTP :=
  { id := 1, user_id := 7, code := "123456", purpose := .TRANSACTION,
    attempts := 0, max_attempts := 3, expires_at := 1000, created_at := 5 }

/-- Witness for C5 (amended): on a fresh OTP the matching code verifies
successfully and marks the row used, and a wrong code yields
`INVALID_OR_EXPIRED`. -/
theorem verify_otp_spec_witness :
    OTPService.verify_user_otp_response 100 [c5_fresh_otp] 7 .TRANSACTION
      "123456" =
      (OTPService.updateOtp [c5_fresh_otp]
        { c5_fresh_otp with attempts := 1, is_used := true,
                            used_at := some 100 }, true,
        .VERIFIED_SUCCESS) ∧
    OTPService.verify_user_otp_response 100 [c5_fresh_otp] 7 .TRANSACTION
      "000000" =
      (OTPService.updateOtp [c5_fresh_otp] { c5_fresh_otp with attempts := 1 },
        false, .INVALID_OR_EXPIRED) :=
  ⟨(verify_otp_spec 100 [c5_fresh_otp] 7 .TRANSACTION c5_fresh_otp "123456"
      (by decide) (by decide)).1 (by decide),
   (verify_otp_spec 100 [c5_fresh_otp] 7 .TRANSACTION c5_fresh_otp "000000"
      (by decide) (by decide)).2 (by decide)⟩

/-! ## C6 -/

theorem is_valid_false_of_exhausted {now : Nat} {otp : OTP}
    (hexh : otp.max_attempts ≤ otp.attempts) :
    OTPService.is_valid now otp = false := by
  unfold OTPService.is_valid
  by_cases h1 : otp.is_used
  · rw [if_pos h1]
  · rw [if_neg h1, if_pos hexh]

/-- Concrete OTP for the C6 counterexample: exhausted
(`attempts = max_attempts = 3`), unused, unexpired at instant 100. -/
def c6_otp : OTP :=
  { id := 1, user_id := 7, code := "123456", purpose := .LOGIN,
    attempts := 3, max_attempts := 3, expires_at := 1000, created_at := 5 }

/-- C6 counterexample: verifying the exhausted `c6_otp` before expiry and
with the correct code does fail, but the reported failure is
`NO_ACTIVE_OTP`, not `MAX_ATTEMPTS_EXCEEDED`: `get_active_otp` filters the
exhausted OTP out through `is_valid`, so the `MAX_ATTEMPTS_EXCEEDED`
branch of `verify_user_otp_response` is unreachable. -/
theorem exhausted_otp_message_counterexample :
    c6_otp.max_attempts ≤ c6_otp.attempts ∧ c6_otp.is_used = false ∧
    ¬ c6_otp.expires_at < 100 ∧ c6_otp.code = "123456" ∧
    OTPService.verify_user_otp_response 100 [c6_otp] 7 .LOGIN "123456" =
      ([c6_otp], false, .NO_ACTIVE_OTP) ∧
    OTPMsg.NO_ACTIVE_OTP ≠ OTPMsg.MAX_ATTEMPTS_EXCEEDED := by
  decide

/-- C6 corrected: once an OTP's attempts counter has reached
`max_attempts` without a successful match, every subsequent verification
call fails — even before the expiry time and even with the correct code —
but the failure reported by `verify_user_otp_response` is `NO_ACTIVE_OTP`
(the exhausted OTP is filtered out by `get_active_otp`), not
`MAX_ATTEMPTS_EXCEEDED`; a direct `verify_otp` on the exhausted row also
fails. -/
theorem exhausted_otp_rejected (now : Nat) (otps : List OTP)
    (user_id : Nat) (purpose : OTPPurpose) (code : String) (otp : OTP)
    (hmr : OTPService.most_recent
      (otps.filter (OTPService.unused_for user_id purpose)) = some otp)
    (hexh : otp.max_attempts ≤ otp.attempts) :
    OTPService.verify_user_otp_response now otps user_id purpose code =
      (otps, false, .NO_ACTIVE_OTP) ∧
    (OTPService.verify_otp now otp code).2 = false := by
  have hval : OTPService.is_valid now otp = false :=
    is_valid_false_of_exhausted hexh
  have hget : OTPService.get_active_otp now otps user_id purpose = none := by
    unfold OTPService.get_active_otp
    simp only [hmr]
    rw [if_neg (by simp [hval])]
  constructor
  · unfold OTPService.verify_user_otp_response
    simp only [hget]
  · have hval1 : OTPService.is_valid now
        { otp with attempts := otp.attempts + 1 } = false :=
      is_valid_false_of_exhausted (Nat.le_succ_of_le hexh)
    unfold OTPService.verify_otp
    rw [if_pos (by simp [hval1])]

/-- Witness for C6 (amended): on the concrete exhausted `c6_otp`, the
response-level call fails with `NO_ACTIVE_OTP` and the direct `verify_otp`
call returns `false`, both with the correct code and before expiry. -/
theorem exhausted_otp_rejected_witness :
    OTPService.verify_user_otp_response 100 [c6_otp] 7 .LOGIN "123456" =
      ([c6_otp], false, .NO_ACTIVE_OTP) ∧
    (OTPService.verify_otp 100 c6_otp "123456").2 = false :=
  exhausted_otp_rejected 100 [c6_otp] 7 .LOGIN "123456" c6_otp
    (by decide) (by decide)

/-! ## C7 -/

theorem eq_singleton_of_mem_of_length_le_one {α : Type _} {l : List α}
    {a : α} (ha : a ∈ l) (h : l.length ≤ 1) : l = [a] := by
  cases l with
  | nil => cases ha
  | cons x rest =>
      cases rest with
      | nil => rw [List.mem_singleton.mp ha]
      | cons y t => simp at h

theorem countUnused_eq_filter_length (otps : List OTP) (u : Nat)
    (p : OTPPurpose) :
    countUnused otps u p =
      (otps.filter (OTPService.unused_for u p)).length := by
  unfold countUnused
  rw [List.countP_eq_length_filter]

/-- C7: starting from an OTP table with at most one unused OTP for the
(user, purpose) pair — the invariant `create_otp` maintains — if
`get_active_otp` selects an OTP with at least two attempts remaining and
the matching code is submitted twice in a row, the first
`verify_user_otp_response` call succeeds (marking the OTP used) and the
second call fails (`NO_ACTIVE_OTP`): the used OTP is never accepted
again. -/
theorem otp_single_use (now1 now2 : Nat) (otps : List OTP) (user_id : Nat)
    (purpose : OTPPurpose) (otp : OTP) (code : String)
    (huniq : countUnused otps user_id purpose ≤ 1)
    (hget : OTPService.get_active_otp now1 otps user_id purpose = some otp)
    (hatt : otp.attempts + 1 < otp.max_attempts)
    (hcode : otp.code = code) :
    (OTPService.verify_user_otp_response now1 otps user_id purpose
      code).2.1 = true ∧
    (OTPService.verify_user_otp_response now2
        (OTPService.verify_user_otp_response now1 otps user_id purpose
          code).1 user_id purpose code).2 = (false, .NO_ACTIVE_OTP) := by
  obtain ⟨hmem, huf, hval⟩ := get_active_otp_some hget
  have hs := verify_response_success now1 otps user_id purpose otp code
    hget hatt hcode
  rw [hs]
  refine ⟨rfl, ?_⟩
  have hfl : otps.filter (OTPService.unused_for user_id purpose) =
      [otp] := by
    refine eq_singleton_of_mem_of_length_le_one
      (List.mem_filter.mpr ⟨hmem, huf⟩) ?_
    rw [← countUnused_eq_filter_length]
    exact huniq
  have hempty : (OTPService.updateOtp otps
      { otp with attempts := otp.attempts + 1, is_used := true,
                 used_at := some now1 }).filter
      (OTPService.unused_for user_id purpose) = [] := by
    rw [List.filter_eq_nil_iff]
    intro x' hx'
    unfold OTPService.updateOtp at hx'
    obtain ⟨x, hx, rfl⟩ := List.mem_map.mp hx'
    by_cases hid : x.id == otp.id
    · rw [if_pos hid]
      unfold OTPService.unused_for
      simp
    · rw [if_neg hid]
      intro hxuf
      have : x ∈ otps.filter (OTPService.unused_for user_id purpose) :=
        List.mem_filter.mpr ⟨hx, hxuf⟩
      rw [hfl, List.mem_singleton] at this
      subst this
      simp at hid
  have hget2 : OTPService.get_active_otp now2
      (OTPService.updateOtp otps
        { otp with attempts := otp.attempts + 1, is_used := true,
                   used_at := some now1 }) user_id purpose = none := by
    unfold OTPService.get_active_otp
    rw [hempty]
    rfl
  unfold OTPService.verify_user_otp_response
  simp only [hget2]

/-- Concrete store for the C7 witness: a single fresh OTP. -/
def c7_otps : List OTP :=
  [{ id := 1, user_id := 7, code := "123456", purpose := .TRANSACTION,
     attempts := 0, max_attempts := 3, expires_at := 1000,
     created_at := 5 }]

/-- Witness for C7: on the concrete one-OTP store, the first call with the
correct code succeeds and the second call with the same code fails. -/
theorem otp_single_use_witness :
    (OTPService.verify_user_otp_response 100 c7_otps 7 .TRANSACTION
      "123456").2.1 = true ∧
    (OTPService.verify_user_otp_response 200
        (OTPService.verify_user_otp_response 100 c7_otps 7 .TRANSACTION
          "123456").1 7 .TRANSACTION "123456").2 =
      (false, .NO_ACTIVE_OTP) :=
  otp_single_use 100 200 c7_otps 7 .TRANSACTION
    { id := 1, user_id := 7, code := "123456", purpose := .TRANSACTION,
      attempts := 0, max_attempts := 3, expires_at := 1000, created_at := 5 }
    "123456" (by decide) (by decide) (by decide) (by decide)

/-! ## C8 -/

theorem unused_for_invalidated (u : Nat) (p : OTPPurpose) (x : OTP) :
    OTPService.unused_for u p { x with is_used := true } = false := by
  unfold OTPService.unused_for
  simp

theorem countUnused_invalidate_self (otps : List OTP) (u : Nat)
    (p : OTPPurpose) :
    countUnused (OTPService.invalidate_existing_otps otps u p) u p = 0 := by
  unfold countUnused OTPService.invalidate_existing_otps
  rw [List.countP_map]
  rw [List.countP_eq_zero]
  intro x hx
  by_cases hu : OTPService.unused_for u p x = true
  · simp only [Function.comp_apply, hu, if_true]
    simp [unused_for_invalidated]
  · simp only [Function.comp_apply, hu, if_false]
    simp at hu
    simp [hu]

theorem countUnused_create_self (otps : List OTP) (u : Nat)
    (p : OTPPurpose) (newId : Nat) (code : String)
    (now validity max_attempts : Nat) :
    countUnused (OTPService.create_otp otps u p newId code now validity
      max_attempts) u p = 1 := by
  unfold OTPService.create_otp countUnused
  rw [List.countP_append]
  have h0 : (OTPService.invalidate_existing_otps otps u p).countP
      (fun o => OTPService.unused_for u p o) = 0 :=
    countUnused_invalidate_self otps u p
  rw [h0]
  simp [OTPService.unused_for]

theorem countUnused_create_other (otps : List OTP) (u : Nat)
    (p : OTPPurpose) (newId : Nat) (code : String)
    (now validity max_attempts : Nat) (u2 : Nat) (p2 : OTPPurpose)
    (hne : ¬ (u2 = u ∧ p2 = p)) :
    countUnused (OTPService.create_otp otps u p newId code now validity
      max_attempts) u2 p2 ≤ countUnused otps u2 p2 := by
  unfold OTPService.create_otp countUnused
  rw [List.countP_append]
  have hnew : List.countP (fun o => OTPService.unused_for u2 p2 o)
      [({ id := newId, user_id := u, code := code, purpose := p,
          is_used := false, attempts := 0, max_attempts := max_attempts,
          expires_at := now + validity, created_at := now,
          used_at := none } : OTP)] = 0 := by
    simp only [List.countP_cons, List.countP_nil]
    have : OTPService.unused_for u2 p2
        { id := newId, user_id := u, code := code, purpose := p,
          is_used := false, attempts := 0, max_attempts := max_attempts,
          expires_at := now + validity, created_at := now,
          used_at := none } = false := by
      unfold OTPService.unused_for
      by_cases hu : u2 = u
      · have hp : ¬ p2 = p := fun hp => hne ⟨hu, hp⟩
        simp [hu, Ne.symm hp]
      · simp [Ne.symm hu]
    simp [this]
  rw [hnew]
  unfold OTPService.invalidate_existing_otps
  rw [List.countP_map]
  simp only [Nat.add_zero]
  apply List.countP_mono_left
  intro x hx
  by_cases hu : OTPService.unused_for u p x = true
  · simp only [Function.comp_apply, hu, if_true]
    intro hcontra
    rw [unused_for_invalidated] at hcontra
    cases hcontra
  · simp only [Function.comp_apply, hu, if_false]
    exact fun h => h

theorem verify_otp_cases (now : Nat) (otp : OTP) (code : String) :
    OTPService.verify_otp now otp code =
      ({ otp with attempts := otp.attempts + 1 }, false) ∨
    OTPService.verify_otp now otp code =
      ({ otp with attempts := otp.attempts + 1, is_used := true,
                  used_at := some now }, true) := by
  unfold OTPService.verify_otp
  by_cases hval : OTPService.is_valid now
      { otp with attempts := otp.attempts + 1 } = true
  · by_cases hc : (otp.code == code) = true
    · right
      rw [if_neg (by simp [hval]), if_pos hc]
    · left
      rw [if_neg (by simp [hval]), if_neg hc]
  · left
    rw [if_pos (by simpa using hval)]

theorem verify_otp_fst_fields (now : Nat) (otp : OTP) (code : String) :
    (OTPService.verify_otp now otp code).1.id = otp.id ∧
    (OTPService.verify_otp now otp code).1.user_id = otp.user_id ∧
    (OTPService.verify_otp now otp code).1.purpose = otp.purpose := by
  rcases verify_otp_cases now otp code with h | h <;> rw [h] <;>
    exact ⟨rfl, rfl, rfl⟩

theorem countUnused_updateOtp_le (otps : List OTP) (o2 : OTP) (otp : OTP)
    (hids : (otps.map OTP.id).Nodup) (hmem : otp ∈ otps)
    (hused : otp.is_used = false)
    (hid : o2.id = otp.id) (huid : o2.user_id = otp.user_id)
    (hpur : o2.purpose = otp.purpose) (u2 : Nat) (p2 : OTPPurpose) :
    countUnused (OTPService.updateOtp otps o2) u2 p2 ≤
      countUnused otps u2 p2 := by
  unfold countUnused OTPService.updateOtp
  rw [List.countP_map]
  apply List.countP_mono_left
  intro x hx
  by_cases hxid : x.id = otp.id
  · have hxeq : x = otp :=
      List.inj_on_of_nodup_map hids hx hmem hxid
    subst hxeq
    simp only [Function.comp_apply, hid, beq_self_eq_true, if_true]
    intro h2
    obtain ⟨h2u, h2p, _⟩ := unused_for_true h2
    unfold OTPService.unused_for
    rw [huid] at h2u
    rw [hpur] at h2p
    simp [h2u, h2p, hused]
  · have : (x.id == o2.id) = false := by
      rw [hid]; simp [hxid]
    simp only [Function.comp_apply, this, if_false]
    exact fun h => h

/-- C8: `create_otp` invalidates every prior unused OTP of the same
(user, purpose) pair before persisting the new one, so right after any
create there is exactly one unused OTP for that pair (hence at most one);
and the at-most-one-unused invariant is preserved by every OTP operation
(create, response-level verify, expired-row cleanup) on a table with
unique row ids. -/
theorem otp_at_most_one_unused (otps : List OTP) (op : OTPOp)
    (hids : (otps.map OTP.id).Nodup) (hinv : otpInv otps) :
    otpInv (applyOTPOp otps op) ∧
    (∀ user_id purpose newId code now validity max_attempts,
      countUnused (OTPService.create_otp otps user_id purpose newId code
        now validity max_attempts) user_id purpose ≤ 1) := by
  constructor
  · cases op with
    | create u p newId code now validity max_attempts =>
        intro u2 p2
        simp only [applyOTPOp]
        by_cases h : u2 = u ∧ p2 = p
        · obtain ⟨hu, hp⟩ := h
          subst hu; subst hp
          rw [countUnused_create_self]
        · exact le_trans
            (countUnused_create_other otps u p newId code now validity
              max_attempts u2 p2 h) (hinv u2 p2)
    | verify now u p code =>
        simp only [applyOTPOp]
        unfold OTPService.verify_user_otp_response
        split
        · exact hinv
        · rename_i otp hget
          split
          · exact hinv
          · split
            · exact hinv
            · intro u2 p2
              obtain ⟨hmem, huf, hval⟩ := get_active_otp_some hget
              obtain ⟨_, _, hused⟩ := unused_for_true huf
              obtain ⟨hid, huid, hpur⟩ := verify_otp_fst_fields now otp code
              exact le_trans
                (countUnused_updateOtp_le otps
                  (OTPService.verify_otp now otp code).1 otp hids hmem
                  hused hid huid hpur u2 p2) (hinv u2 p2)
    | cleanup now =>
        intro u2 p2
        simp only [applyOTPOp]
        unfold countUnused OTPService.cleanup_expired_otps
        exact le_trans
          ((List.filter_sublist otps).countP_le _) (hinv u2 p2)
  · intro user_id purpose newId code now validity max_attempts
    rw [countUnused_create_self]

/-- Concrete store for the C8 witness: one unused LOGIN OTP for user 7. -/
def c8_otps : List OTP :=
  [{ id := 1, user_id := 7, code := "111111", purpose := .LOGIN,
     attempts := 0, max_attempts := 3, expires_at := 1000,
     created_at := 5 }]

/-- Witness for C8: creating a second LOGIN OTP for user 7 on the concrete
store preserves the at-most-one-unused invariant, and the pair
(7, LOGIN) has at most one unused OTP right after the create. -/
theorem otp_at_most_one_unused_witness :
    otpInv (applyOTPOp c8_otps (.create 7 .LOGIN 2 "222222" 10 600 3)) ∧
    countUnused (OTPService.create_otp c8_otps 7 .LOGIN 2 "222222" 10 600 3)
      7 .LOGIN ≤ 1 := by
  have h := otp_at_most_one_unused c8_otps
    (.create 7 .LOGIN 2 "222222" 10 600 3) (by decide)
    (by
      intro u2 p2
      unfold countUnused c8_otps
      rw [List.countP_cons, List.countP_nil]
      split <;> simp)
  exact ⟨h.1, h.2 7 .LOGIN 2 "222222" 10 600 3⟩

end Bank
